import Mathlib

/-!
Shallow embedding of `verification/verify_scroll_sync.py`.

The script is a single linear async function:

```python
async def main():
    async with async_playwright() as p:
        browser = await p.chromium.launch()
        page = await browser.new_page()
        await page.goto("http://localhost:5173")
        await page.mouse.move(300, 300)
        await page.mouse.wheel(0, 500)
        await asyncio.sleep(1)
        await page.screenshot(path="verification/scroll-sync.png")
        await browser.close()

if __name__ == "__main__":
    asyncio.run(main())
```

We embed it as a trace semantics: each awaited library call is an
operation issued to the outside world.  The environment (a `World`)
decides, per call, whether that call raises.  Python exception
semantics for straight-line code is modelled by threading an error
state: once a statement has raised, the following statements of the
function body are skipped.  The `async with async_playwright()`
context manager's exit handler (which stops the Playwright driver)
runs on every exit path, normal or exceptional, so the embedding
appends the stop operation unconditionally.  `asyncio.run(main())`
with an unhandled exception makes the interpreter exit with status 1;
with no exception the script exits 0.
-/

namespace VerifyScrollSync

/-- Operations the script issues to the outside world, in source order:
entering the Playwright context, `p.chromium.launch()` (with its
headless flag), `browser.new_page()`, `page.goto(url)`,
`page.mouse.move(x, y)`, `page.mouse.wheel(dx, dy)`,
`asyncio.sleep(seconds)`, `page.screenshot(path)`, `browser.close()`,
and the context-manager exit that stops the driver. -/
inductive Op where
  | startPlaywright : Op
  | launch : Bool → Op
  | newPage : Op
  | goto : String → Op
  | mouseMove : Int → Int → Op
  | mouseWheel : Int → Int → Op
  | sleep : Nat → Op
  | screenshot : String → Op
  | browserClose : Op
  | stopPlaywright : Op
deriving DecidableEq, Repr

/-- The environment of one run: which fallible library calls raise, and
the abstract pixel content the page would show if captured (an opaque
stand-in for the rendered screenshot bytes). -/
structure World where
  launchFails : Bool
  newPageFails : Bool
  gotoFails : Bool
  moveFails : Bool
  wheelFails : Bool
  screenshotFails : Bool
  closeFails : Bool
  image : Nat
deriving DecidableEq, Repr

/-- The local filesystem, as a map from paths to file contents
(abstracted to the `Nat` stand-in used for image bytes). -/
def FS : Type := String → Option Nat

/-- Execution state of the script: the operations issued so far, the
uncaught exception if one was raised (recorded as the operation that
raised it), and the filesystem. -/
structure S where
  trace : List Op
  error : Option Op
  fs : FS

/-- The fixed navigation target, `"http://localhost:5173"` in the source. -/
def targetUrl : String := "http://localhost:5173"

/-- The fixed screenshot output path, `"verification/scroll-sync.png"`
in the source. -/
def outPath : String := "verification/scroll-sync.png"

/-- One awaited statement of the function body: skipped entirely when an
earlier statement already raised (Python exception propagation through
straight-line code); otherwise the operation is issued, and raises when
the environment says it fails. -/
def step (op : Op) (fails : Bool) (s : S) : S :=
  if s.error.isSome then s
  else { s with trace := s.trace ++ [op],
                error := if fails then some op else none }

/-- The `page.screenshot(path=...)` statement: like `step`, but on
success it additionally writes the captured image to `outPath`,
overwriting whatever was there. -/
def screenshotStep (w : World) (s : S) : S :=
  if s.error.isSome then s
  else { trace := s.trace ++ [Op.screenshot outPath],
         error := if w.screenshotFails then some (Op.screenshot outPath) else none,
         fs := if w.screenshotFails then s.fs
               else Function.update s.fs outPath (some w.image) }

/-- The whole of `main()` as run by `asyncio.run`: the statements of the
body in source order, wrapped in the `async_playwright()` context whose
exit handler (stopping the driver) runs on every exit path.
`p.chromium.launch()` is called with no arguments, so Playwright's
default `headless=True` applies. -/
def mainRun (w : World) (fs : FS) : S :=
  let s0 : S := { trace := [Op.startPlaywright], error := none, fs := fs }
  let s1 := step (Op.launch true) w.launchFails s0
  let s2 := step Op.newPage w.newPageFails s1
  let s3 := step (Op.goto targetUrl) w.gotoFails s2
  let s4 := step (Op.mouseMove 300 300) w.moveFails s3
  let s5 := step (Op.mouseWheel 0 500) w.wheelFails s4
  let s6 := step (Op.sleep 1) false s5
  let s7 := screenshotStep w s6
  let s8 := step Op.browserClose w.closeFails s7
  { s8 with trace := s8.trace ++ [Op.stopPlaywright] }

/-- Process exit status: Python exits 1 when `asyncio.run(main())` lets
an exception escape, 0 otherwise. -/
def exitCode (s : S) : Nat :=
  match s.error with
  | none => 0
  | some _ => 1

/-- Whether an operation is a simulated input gesture (pointer move or
wheel event). -/
def Op.isInput : Op → Bool
  | Op.mouseMove _ _ => true
  | Op.mouseWheel _ _ => true
  | _ => false

/-- Whether an operation is a navigation. -/
def Op.isGoto : Op → Bool
  | Op.goto _ => true
  | _ => false

/-- Whether an operation is a screenshot capture. -/
def Op.isScreenshot : Op → Bool
  | Op.screenshot _ => true
  | _ => false

/-- Whether an operation is a wheel event. -/
def Op.isWheel : Op → Bool
  | Op.mouseWheel _ _ => true
  | _ => false

/-- The subsequence of input gestures in a trace. -/
def inputOps (t : List Op) : List Op := t.filter Op.isInput

/-- Whether any step of the run raises, i.e. whether the environment
makes at least one of the fallible library calls fail. -/
def anyFails (w : World) : Bool :=
  w.launchFails || w.newPageFails || w.gotoFails || w.moveFails ||
  w.wheelFails || w.screenshotFails || w.closeFails

/-- The script as seen from its invocation context: the source reads
no command-line arguments, no environment variables and no
configuration file, so the run is a function of the runtime
environment and filesystem alone; the invocation context parameters
are explicit here only so that independence from them can be stated. -/
def mainWithContext (args : List String) (env : String → Option String)
    (w : World) (fs : FS) : S :=
  mainRun w fs

/-- C8: the browser process resource is acquired in headless mode at the
start of every run — in every environment the first operation after
entering the Playwright context is `p.chromium.launch()` with
Playwright's default `headless=True`. -/
theorem launch_headless_at_start (w : World) (fs : FS) :
    ∃ rest, (mainRun w fs).trace = Op.startPlaywright :: Op.launch true :: rest := by
  rcases w with ⟨l, np, g, mv, wh, sc, cl, img⟩
  cases l <;> cases np <;> cases g <;> cases mv <;> cases wh <;> cases sc <;> cases cl <;>
    exact ⟨_, rfl⟩

/-- C10: on every exit path, including every exceptional one, the
`async with async_playwright()` exit handler runs last and stops the
Playwright driver. -/
theorem playwright_stopped_on_every_path (w : World) (fs : FS) :
    ((mainRun w fs).trace).getLast? = some Op.stopPlaywright := by
  rcases w with ⟨l, np, g, mv, wh, sc, cl, img⟩
  cases l <;> cases np <;> cases g <;> cases mv <;> cases wh <;> cases sc <;> cases cl <;>
    rfl

/-- C2: if any step of the run raises, the script catches nothing: the
exception is still uncaught at the end of the run and the process exits
with a non-zero status. -/
theorem error_propagates_nonzero_exit (w : World) (fs : FS)
    (h : anyFails w = true) :
    ((mainRun w fs).error).isSome = true ∧ exitCode (mainRun w fs) ≠ 0 := by
  rcases w with ⟨l, np, g, mv, wh, sc, cl, img⟩
  cases l <;> cases np <;> cases g <;> cases mv <;> cases wh <;> cases sc <;> cases cl <;>
    simp_all [anyFails, mainRun, step, screenshotStep, exitCode]

/-- Witness for C2 at a concrete environment where navigation fails. -/
theorem error_propagates_nonzero_exit_witness :
    anyFails ⟨false, false, true, false, false, false, false, 7⟩ = true ∧
      (((mainRun ⟨false, false, true, false, false, false, false, 7⟩
          (fun _ => none)).error).isSome = true ∧
        exitCode (mainRun ⟨false, false, true, false, false, false, false, 7⟩
          (fun _ => none)) ≠ 0) :=
  ⟨rfl, error_propagates_nonzero_exit
    ⟨false, false, true, false, false, false, false, 7⟩ (fun _ => none) rfl⟩

/-- C3: if navigation fails, the screenshot step never executes, the
filesystem (in particular any pre-existing file at the output path) is
left unchanged, and the process exits non-zero. -/
theorem nav_failure_no_screenshot (w : World) (fs : FS)
    (h : w.gotoFails = true) :
    (∀ p, Op.screenshot p ∉ (mainRun w fs).trace) ∧
      (mainRun w fs).fs = fs ∧ exitCode (mainRun w fs) ≠ 0 := by
  rcases w with ⟨l, np, g, mv, wh, sc, cl, img⟩
  cases l <;> cases np <;> cases g <;> cases mv <;> cases wh <;> cases sc <;> cases cl <;>
    simp_all [mainRun, step, screenshotStep, exitCode]

/-- Witness for C3 at a concrete environment where only navigation
fails, with a pre-existing file at the output path. -/
theorem nav_failure_no_screenshot_witness :
    (⟨false, false, true, false, false, false, false, 7⟩ : World).gotoFails = true ∧
      ((∀ p, Op.screenshot p ∉
          (mainRun ⟨false, false, true, false, false, false, false, 7⟩
            (fun _ => some 3)).trace) ∧
        (mainRun ⟨false, false, true, false, false, false, false, 7⟩
            (fun _ => some 3)).fs = (fun _ => some 3) ∧
        exitCode (mainRun ⟨false, false, true, false, false, false, false, 7⟩
            (fun _ => some 3)) ≠ 0) :=
  ⟨rfl, nav_failure_no_screenshot
    ⟨false, false, true, false, false, false, false, 7⟩ (fun _ => some 3) rfl⟩

/-- C4: the explicit `browser.close()` call is issued exactly when every
step up to and including the screenshot succeeded; if any step before
the screenshot raises (or the screenshot itself raises), the close call
is skipped. -/
theorem close_only_after_screenshot (w : World) (fs : FS) :
    Op.browserClose ∈ (mainRun w fs).trace ↔
      (w.launchFails = false ∧ w.newPageFails = false ∧ w.gotoFails = false ∧
       w.moveFails = false ∧ w.wheelFails = false ∧ w.screenshotFails = false) := by
  rcases w with ⟨l, np, g, mv, wh, sc, cl, img⟩
  cases l <;> cases np <;> cases g <;> cases mv <;> cases wh <;> cases sc <;> cases cl <;>
    simp [mainRun, step, screenshotStep]

/-- C1: in every run where the screenshot step is reached with no earlier
step raising, the input gestures performed before capture are exactly one
pointer move to (300, 300) followed by exactly one wheel event with
horizontal delta 0 and vertical delta 500, in that order. -/
theorem input_gesture_before_capture (w : World) (fs : FS)
    (h1 : w.launchFails = false) (h2 : w.newPageFails = false)
    (h3 : w.gotoFails = false) (h4 : w.moveFails = false)
    (h5 : w.wheelFails = false) :
    Op.screenshot outPath ∈ (mainRun w fs).trace ∧
      inputOps (((mainRun w fs).trace).takeWhile (fun op => !Op.isScreenshot op)) =
        [Op.mouseMove 300 300, Op.mouseWheel 0 500] := by
  rcases w with ⟨l, np, g, mv, wh, sc, cl, img⟩
  cases l <;> simp at h1
  cases np <;> simp at h2
  cases g <;> simp at h3
  cases mv <;> simp at h4
  cases wh <;> simp at h5
  cases sc <;> cases cl <;>
    exact ⟨by simp [mainRun, step, screenshotStep], rfl⟩

/-- Witness for C1 at a concrete failure-free environment. -/
theorem input_gesture_before_capture_witness :
    (⟨false, false, false, false, false, false, false, 7⟩ : World).launchFails = false ∧
      (⟨false, false, false, false, false, false, false, 7⟩ : World).newPageFails = false ∧
      (⟨false, false, false, false, false, false, false, 7⟩ : World).gotoFails = false ∧
      (⟨false, false, false, false, false, false, false, 7⟩ : World).moveFails = false ∧
      (⟨false, false, false, false, false, false, false, 7⟩ : World).wheelFails = false ∧
      (Op.screenshot outPath ∈
          (mainRun ⟨false, false, false, false, false, false, false, 7⟩
            (fun _ => none)).trace ∧
        inputOps (((mainRun ⟨false, false, false, false, false, false, false, 7⟩
              (fun _ => none)).trace).takeWhile (fun op => !Op.isScreenshot op)) =
          [Op.mouseMove 300 300, Op.mouseWheel 0 500]) :=
  ⟨rfl, rfl, rfl, rfl, rfl, input_gesture_before_capture
    ⟨false, false, false, false, false, false, false, 7⟩ (fun _ => none)
    rfl rfl rfl rfl rfl⟩

set_option maxHeartbeats 1000000 in
/-- C5: every run in which the page exists issues exactly one navigation,
to the fixed URL, immediately after page creation and before any input
gesture; when that navigation fails nothing follows it except the
context-manager exit (no retry). -/
theorem navigation_exactly_once (w : World) (fs : FS)
    (h1 : w.launchFails = false) (h2 : w.newPageFails = false) :
    (((mainRun w fs).trace).countP (fun op => Op.isGoto op)) = 1 ∧
      inputOps (((mainRun w fs).trace).takeWhile (fun op => !Op.isGoto op)) = [] ∧
      ∃ rest, (mainRun w fs).trace =
          [Op.startPlaywright, Op.launch true, Op.newPage, Op.goto targetUrl] ++ rest ∧
        (w.gotoFails = true → rest = [Op.stopPlaywright]) := by
  rcases w with ⟨l, np, g, mv, wh, sc, cl, img⟩
  cases l <;> simp at h1
  cases np <;> simp at h2
  cases g <;> cases mv <;> cases wh <;> cases sc <;> cases cl <;>
    (refine ⟨rfl, rfl, _, rfl, ?_⟩; intro hg; first | rfl | simp at hg)

/-- Witness for C5 at a concrete environment where navigation fails. -/
theorem navigation_exactly_once_witness :
    (⟨false, false, true, false, false, false, false, 7⟩ : World).launchFails = false ∧
      (⟨false, false, true, false, false, false, false, 7⟩ : World).newPageFails = false ∧
      ((((mainRun ⟨false, false, true, false, false, false, false, 7⟩
            (fun _ => none)).trace).countP (fun op => Op.isGoto op)) = 1 ∧
        inputOps (((mainRun ⟨false, false, true, false, false, false, false, 7⟩
              (fun _ => none)).trace).takeWhile (fun op => !Op.isGoto op)) = [] ∧
        ∃ rest, (mainRun ⟨false, false, true, false, false, false, false, 7⟩
              (fun _ => none)).trace =
            [Op.startPlaywright, Op.launch true, Op.newPage, Op.goto targetUrl] ++ rest ∧
          ((⟨false, false, true, false, false, false, false, 7⟩ : World).gotoFails = true →
            rest = [Op.stopPlaywright])) :=
  ⟨rfl, rfl, navigation_exactly_once
    ⟨false, false, true, false, false, false, false, 7⟩ (fun _ => none) rfl rfl⟩

/-- C6: on every successful run the captured image is written to the
fixed output path, overwriting whatever was there, and no other path of
the filesystem is changed. -/
theorem screenshot_only_write (w : World) (fs : FS)
    (h : (mainRun w fs).error = none) :
    (mainRun w fs).fs outPath = some w.image ∧
      ∀ p, p ≠ outPath → (mainRun w fs).fs p = fs p := by
  rcases w with ⟨l, np, g, mv, wh, sc, cl, img⟩
  cases l <;> cases np <;> cases g <;> cases mv <;> cases wh <;> cases sc <;> cases cl <;>
    simp_all [mainRun, step, screenshotStep, Function.update_same, Function.update_noteq]

/-- Witness for C6 at a concrete failure-free environment with a
pre-existing file at the output path. -/
theorem screenshot_only_write_witness :
    (mainRun ⟨false, false, false, false, false, false, false, 7⟩
        (fun _ => some 3)).error = none ∧
      ((mainRun ⟨false, false, false, false, false, false, false, 7⟩
          (fun _ => some 3)).fs outPath = some 7 ∧
        ∀ p, p ≠ outPath →
          (mainRun ⟨false, false, false, false, false, false, false, 7⟩
            (fun _ => some 3)).fs p = (fun _ => some 3 : FS) p) :=
  ⟨rfl, screenshot_only_write
    ⟨false, false, false, false, false, false, false, 7⟩ (fun _ => some 3) rfl⟩

/-- C7: in every run that reaches the settle wait, the trace contains
exactly one wheel event and exactly one capture, and the only operation
between them is the fixed 1-second suspension. -/
theorem sleep_between_wheel_and_capture (w : World) (fs : FS)
    (h1 : w.launchFails = false) (h2 : w.newPageFails = false)
    (h3 : w.gotoFails = false) (h4 : w.moveFails = false)
    (h5 : w.wheelFails = false) :
    (((mainRun w fs).trace).countP (fun op => Op.isWheel op)) = 1 ∧
      (((mainRun w fs).trace).countP (fun op => Op.isScreenshot op)) = 1 ∧
      ∃ pre post, (mainRun w fs).trace =
        pre ++ Op.mouseWheel 0 500 :: Op.sleep 1 :: Op.screenshot outPath :: post := by
  rcases w with ⟨l, np, g, mv, wh, sc, cl, img⟩
  cases l <;> simp at h1
  cases np <;> simp at h2
  cases g <;> simp at h3
  cases mv <;> simp at h4
  cases wh <;> simp at h5
  cases sc <;> cases cl <;>
    exact ⟨rfl, rfl,
      [Op.startPlaywright, Op.launch true, Op.newPage, Op.goto targetUrl,
       Op.mouseMove 300 300], _, rfl⟩

/-- Witness for C7 at a concrete failure-free environment. -/
theorem sleep_between_wheel_and_capture_witness :
    (⟨false, false, false, false, false, false, false, 7⟩ : World).launchFails = false ∧
      (⟨false, false, false, false, false, false, false, 7⟩ : World).newPageFails = false ∧
      (⟨false, false, false, false, false, false, false, 7⟩ : World).gotoFails = false ∧
      (⟨false, false, false, false, false, false, false, 7⟩ : World).moveFails = false ∧
      (⟨false, false, false, false, false, false, false, 7⟩ : World).wheelFails = false ∧
      ((((mainRun ⟨false, false, false, false, false, false, false, 7⟩
            (fun _ => none)).trace).countP (fun op => Op.isWheel op)) = 1 ∧
        (((mainRun ⟨false, false, false, false, false, false, false, 7⟩
            (fun _ => none)).trace).countP (fun op => Op.isScreenshot op)) = 1 ∧
        ∃ pre post, (mainRun ⟨false, false, false, false, false, false, false, 7⟩
            (fun _ => none)).trace =
          pre ++ Op.mouseWheel 0 500 :: Op.sleep 1 :: Op.screenshot outPath :: post) :=
  ⟨rfl, rfl, rfl, rfl, rfl, sleep_between_wheel_and_capture
    ⟨false, false, false, false, false, false, false, 7⟩ (fun _ => none)
    rfl rfl rfl rfl rfl⟩

/-- C9: the run is a function of the runtime environment and filesystem
alone — two invocations with different command-line arguments and
process environments behave identically — and on a failure-free run the
operation sequence is the fixed literal sequence of the source. -/
theorem context_independent (args1 args2 : List String)
    (env1 env2 : String → Option String) (w : World) (fs : FS) :
    mainWithContext args1 env1 w fs = mainWithContext args2 env2 w fs ∧
      (anyFails w = false →
        (mainWithContext args1 env1 w fs).trace =
          [Op.startPlaywright, Op.launch true, Op.newPage, Op.goto targetUrl,
           Op.mouseMove 300 300, Op.mouseWheel 0 500, Op.sleep 1,
           Op.screenshot outPath, Op.browserClose, Op.stopPlaywright]) := by
  refine ⟨rfl, fun h => ?_⟩
  rcases w with ⟨l, np, g, mv, wh, sc, cl, img⟩
  cases l <;> cases np <;> cases g <;> cases mv <;> cases wh <;> cases sc <;> cases cl <;>
    first
      | rfl
      | simp [anyFails] at h

/-- Witness for C9 at two concrete invocation contexts and a concrete
failure-free environment. -/
theorem context_independent_witness :
    mainWithContext ["--flag"] (fun _ => none)
        ⟨false, false, false, false, false, false, false, 7⟩ (fun _ => none) =
      mainWithContext [] (fun s => some s)
        ⟨false, false, false, false, false, false, false, 7⟩ (fun _ => none) ∧
      (anyFails ⟨false, false, false, false, false, false, false, 7⟩ = false →
        (mainWithContext ["--flag"] (fun _ => none)
            ⟨false, false, false, false, false, false, false, 7⟩ (fun _ => none)).trace =
          [Op.startPlaywright, Op.launch true, Op.newPage, Op.goto targetUrl,
           Op.mouseMove 300 300, Op.mouseWheel 0 500, Op.sleep 1,
           Op.screenshot outPath, Op.browserClose, Op.stopPlaywright]) :=
  context_independent ["--flag"] [] (fun _ => none) (fun s => some s)
    ⟨false, false, false, false, false, false, false, 7⟩ (fun _ => none)

end VerifyScrollSync
